import Mathlib

/-!
Shallow embedding of the CSOP (Client-Side Orchestration Protocol) core:
the dispatcher (`src/csop.js`: `dispatch`, `_executeWithRetry`, `_withTimeout`,
`_errorResponse`, `register`, `CSPValidator.validateCapability`) and the
storage tiering capability (`src/capabilities/storage.js`: `save`, `get`,
`delete` and the constructor defaults).

Modelling conventions:
* JavaScript `Map` objects and the IndexedDB object store are modelled as
  association lists with `kvGet` / `kvPut` / `kvDel`; `kvPut` overwrites the
  previous binding for the key, matching `Map.set` / `store.put` semantics.
* A JavaScript `Error` value is `JsError`: a `message` string plus the
  optional `code` property that CSOP attaches to some errors.
* Stored values are represented by their JSON serialization (a `String`);
  the byte size computed by `new Blob([JSON.stringify(data)]).size` is the
  UTF-8 byte size of that string.
* Time is abstracted: each attempt of an operation is described by a
  `Settle` value saying whether the underlying promise settles before the
  timeout timer fires (`settles r d`, with `d` the measured duration) or the
  timer wins the race (`hangs`).  `withTimeout` mirrors the
  `Promise.race` in `_withTimeout`.
* The retry loop `for (attempt = 0; attempt <= maxRetries; attempt++)` is
  written as structural recursion on the number of remaining attempts,
  carrying the current attempt index; `remaining = maxRetries - attempt`
  throughout, and `attempt < maxRetries` is `remaining > 0`.
-/

namespace CSOP

/-- Association-list lookup, modelling `Map.get` / IndexedDB `store.get`. -/
def kvGet {α : Type} (k : String) : List (String × α) → Option α
  | [] => none
  | (k', v) :: rest => if k' = k then some v else kvGet k rest

/-- Association-list delete, modelling `Map.delete` / `store.delete`. -/
def kvDel {α : Type} (k : String) : List (String × α) → List (String × α)
  | [] => []
  | (k', v) :: rest => if k' = k then kvDel k rest else (k', v) :: kvDel k rest

/-- Association-list insert-or-overwrite, modelling `Map.set` / `store.put`. -/
def kvPut {α : Type} (k : String) (v : α) (l : List (String × α)) : List (String × α) :=
  (k, v) :: kvDel k l

/-- A JavaScript `Error` as CSOP uses it: a message, plus the optional
`code` string property some call sites attach (`error.code = 'KEY_NOT_FOUND'`). -/
structure JsError where
  message : String
  code : Option String
deriving DecidableEq, Repr

/-- The response envelope built by `dispatch` / `_errorResponse`:
either `{id, status:'ok', data, duration}` or
`{id, status:'error', error:{code, message, retry}}`. -/
inductive Response (α : Type) where
  | ok (id : String) (data : α) (duration : Nat)
  | error (id : String) (code : String) (message : String) (retry : Bool)
deriving DecidableEq, Repr

/-- The error code of an error envelope, if the response is an error. -/
def Response.errCode {α : Type} : Response α → Option String
  | .ok _ _ _ => none
  | .error _ code _ _ => some code

/-- The `retry` flag of an error envelope, if the response is an error. -/
def Response.errRetry {α : Type} : Response α → Option Bool
  | .ok _ _ _ => none
  | .error _ _ _ r => some r

/-- The fixed list of non-retryable codes hard-coded in `_errorResponse`. -/
def structuralCodes : List String :=
  ["INVALID_ACTION", "CAPABILITY_NOT_FOUND", "OPERATION_NOT_FOUND"]

/-- `_errorResponse(id, code, message)`: builds the error envelope; the
`retry` flag is `true` exactly when the code is not one of the structural
codes. -/
def errorResponse {α : Type} (id code message : String) : Response α :=
  .error id code message (!(structuralCodes.contains code))

/-- One attempt of a capability operation, as observed by the timeout race:
either the underlying promise settles (with an outcome and a wall-clock
duration) before the `timeoutMillis` timer fires, or the timer fires first. -/
inductive Settle (α : Type) where
  | settles (outcome : Except JsError α) (duration : Nat)
  | hangs

/-- `_withTimeout(promise, ms)`: `Promise.race` of the operation against a
timer that rejects with `new Error('TIMEOUT')`.  Note the race loser rejects
with a plain `Error` whose message is `'TIMEOUT'` and whose `code` property
is absent. -/
def withTimeout {α : Type} : Settle α → Except JsError (α × Nat)
  | .settles (.ok a) d => .ok (a, d)
  | .settles (.error e) _ => .error e
  | .hangs => .error ⟨"TIMEOUT", none⟩

/-- The body of `_executeWithRetry`'s loop, recursing on the number of
remaining retries.  `runAttempts behavior attempt remaining` performs
attempts `attempt, attempt+1, ..., attempt+remaining`; it returns the final
outcome, the number of invocations performed, and the list of backoff delays
(`Math.pow(2, attempt) * 100` milliseconds) inserted between attempts. -/
def runAttempts {α : Type} (behavior : Nat → Settle α) :
    Nat → Nat → Except JsError (α × Nat) × Nat × List Nat
  | attempt, remaining =>
    match withTimeout (behavior attempt) with
    | .ok r => (.ok r, 1, [])
    | .error e =>
      match remaining with
      | 0 => (.error e, 1, [])
      | r + 1 =>
        let rest := runAttempts behavior (attempt + 1) r
        (rest.1, rest.2.1 + 1, (2 ^ attempt * 100) :: rest.2.2)

/-- The observable outcome of `_executeWithRetry`: the response envelope,
how many times the operation was invoked, and the backoff delays awaited. -/
structure ExecOut (α : Type) where
  response : Response α
  invocations : Nat
  delays : List Nat
deriving Repr

/-- JavaScript `s || fallback` for a string value: the empty string is
falsy, so the fallback replaces it. -/
def jsOrDefault (s fallback : String) : String :=
  if s = "" then fallback else s

/-- JavaScript `x || fallback` for an optional string property: the
fallback is taken when the property is absent (`undefined`) and also when
it is present but the empty string (both are falsy). -/
def jsOrDefaultOpt (x : Option String) (fallback : String) : String :=
  jsOrDefault (x.getD "") fallback

/-- `_executeWithRetry(message, capability, operation)`: run the attempts;
on success return the ok envelope with the measured duration; after
exhausting all attempts return `_errorResponse` built from
`lastError.code || 'EXECUTION_FAILED'` and `lastError.message || 'Unknown
error'` (the JavaScript `||` takes the fallback when the field is absent
and also when it is the empty string, both being falsy). -/
def executeWithRetry {α : Type} (id : String) (behavior : Nat → Settle α)
    (maxRetries : Nat) : ExecOut α :=
  match runAttempts behavior 0 maxRetries with
  | (.ok (r, dur), n, ds) => ⟨.ok id r dur, n, ds⟩
  | (.error e, n, ds) =>
    ⟨errorResponse id (jsOrDefaultOpt e.code "EXECUTION_FAILED")
      (jsOrDefault e.message "Unknown error"), n, ds⟩

/-- A deterministic single-outcome operation: every attempt settles at once
with the same result (how a pure capability method behaves under retry). -/
def opOnce {α : Type} (r : Except JsError α) : Nat → Settle α :=
  fun _ => .settles r 0

/-- JavaScript `String.prototype.split` with the one-character separator
`'.'`, over the character list of the string: `"a.b.c" ↦ ["a","b","c"]`,
`"" ↦ [""]`, `"a." ↦ ["a",""]`. -/
def splitDots : List Char → List (List Char)
  | [] => [[]]
  | c :: cs =>
    if c = '.' then [] :: splitDots cs
    else
      match splitDots cs with
      | [] => [[c]]
      | p :: ps => (c :: p) :: ps

/-- Split at the first dot only (the specification's reading): `none` when
the string has no dot, otherwise the text before the first dot and the
entire remainder after it. -/
def dotSplitFirst : List Char → Option (List Char × List Char)
  | [] => none
  | c :: cs =>
    if c = '.' then some ([], cs)
    else (dotSplitFirst cs).map (fun p => (c :: p.1, p.2))

/-- JavaScript falsiness of `parts[i]` after a split: the element is absent
(`undefined`) or the empty string. -/
def jsFalsySeg : Option (List Char) → Bool
  | none => true
  | some l => l.isEmpty

/-- An action the specification calls malformed: no `.` separator, or the
half before the first dot is empty, or the remainder after it is empty. -/
def malformedAction (action : List Char) : Bool :=
  match dotSplitFirst action with
  | none => true
  | some (d, r) => d.isEmpty || r.isEmpty

/-- A capability as the dispatcher sees it: a map from operation name to an
operation taking the payload; each attempt's observable behavior is a
`Settle` indexed by the attempt number. -/
structure Capability (π α : Type) where
  ops : List (String × (π → Nat → Settle α))

/-- `register(name, capability)`: `this.capabilities.set(name, capability)` —
an unconditional insert-or-overwrite into the registry map. -/
def register {π α : Type} (name : String) (capability : Capability π α)
    (registry : List (String × Capability π α)) : List (String × Capability π α) :=
  kvPut name capability registry

/-- First character class of the `/^[a-z_][a-z0-9_]*$/i` check in
`CSPValidator.validateCapability` (case-insensitive letter or underscore). -/
def wordStart (c : Char) : Bool :=
  ('a' ≤ c.toLower && c.toLower ≤ 'z') || c = '_'

/-- Continuation character class of the same check (adds digits). -/
def wordChar (c : Char) : Bool :=
  wordStart c || c.isDigit

/-- Whether a name matches `/^[a-z_][a-z0-9_]*$/i`. -/
def capNameValid (name : String) : Bool :=
  match name.toList with
  | [] => false
  | c :: cs => wordStart c && cs.all wordChar

/-- `CSPValidator.validateCapability(name)`: returns the name if it matches
the pattern, otherwise throws `CAPABILITY_NAME_INVALID`.  Note: this helper
exists in the source but `register` never calls it. -/
def validateCapability (name : String) : Except String String :=
  if capNameValid name then .ok name
  else .error "CAPABILITY_NAME_INVALID: Invalid format"

/-- The observable outcome of one `dispatch` call: the response envelope,
whether the capability registry was consulted (`this.capabilities.get`),
the number of operation invocations and the backoff delays. -/
structure DispatchOut (α : Type) where
  response : Response α
  registryConsulted : Bool
  invocations : Nat
  delays : List Nat

/-- Whether an `Except` computation succeeded (a promise that resolved
rather than rejected). -/
def exceptOk {ε δ : Type} : Except ε δ → Bool
  | .ok _ => true
  | .error _ => false

/-- Wrap an executor outcome as the dispatch outcome (the registry was
consulted on this path). -/
def execToDispatch {α : Type} (e : ExecOut α) : DispatchOut α :=
  ⟨e.response, true, e.invocations, e.delays⟩

/-- The domain the dispatcher parses: the segment of the action before the
first `'.'`. -/
def parsedDomain (action : String) : String :=
  ⟨((splitDots action.toList)[0]?).getD []⟩

/-- The operation name the dispatcher parses: the second `'.'`-separated
segment of the action (`action.split('.')[1]`). -/
def parsedOperation (action : String) : String :=
  ⟨((splitDots action.toList)[1]?).getD []⟩

/-- `dispatch(action, payload, options)`: throws (`Except.error`) when the
instance is not initialized; otherwise resolves options over the defaults
`{timeout: 5000, retry: 0}` (the timeout value enters the model through
`Settle`, the retry bound through `executeWithRetry`), splits the action on
`'.'` and reads the first two segments, returns `INVALID_ACTION` when
either is missing or empty, looks the domain up in the registry
(`CAPABILITY_NOT_FOUND` when absent), looks the operation up on the
capability (`OPERATION_NOT_FOUND` when absent), and finally delegates to
`_executeWithRetry`. -/
def dispatch {π α : Type} (initialized : Bool)
    (registry : List (String × Capability π α)) (id : String) (action : String)
    (payload : π) (timeoutOpt retryOpt : Option Nat) :
    Except String (DispatchOut α) :=
  if !initialized then
    .error "CSOP not initialized. Call csop.init() first."
  else
    if jsFalsySeg (splitDots action.toList)[0]? ||
        jsFalsySeg (splitDots action.toList)[1]? then
      .ok ⟨errorResponse id "INVALID_ACTION"
        ("Action must be in format \"domain.operation\", got \"" ++ action ++ "\""),
        false, 0, []⟩
    else
      match kvGet (parsedDomain action) registry with
      | none =>
        .ok ⟨errorResponse id "CAPABILITY_NOT_FOUND"
          ("No capability registered for domain \"" ++ parsedDomain action ++ "\""),
          true, 0, []⟩
      | some capability =>
        match kvGet (parsedOperation action) capability.ops with
        | none =>
          .ok ⟨errorResponse id "OPERATION_NOT_FOUND"
            ("Operation \"" ++ parsedOperation action ++ "\" not found in capability \"" ++
              parsedDomain action ++ "\""), true, 0, []⟩
        | some op =>
          .ok (execToDispatch (executeWithRetry id (op payload) (retryOpt.getD 0)))

/-- The remote (Turso) configuration object; `save`/`get`/`delete` only test
its presence. -/
structure TursoConfig where
  url : String
  authToken : String
deriving DecidableEq, Repr

/-- The state of `StorageCapability`: the local IndexedDB object store, the
remote store, the optional remote configuration, and the tiering threshold
(`maxLocalSize`, `5 * 1024 * 1024` bytes by default).

The remote store itself is modelled from the spec: the concrete Turso client
(`_saveCloud` / `_getCloud` / `_deleteCloud`) is an external collaborator
that the source ships only as a placeholder, so the remote tier is modelled
at its interface boundary as a key-value store. -/
structure StorageCapability where
  localStore : List (String × String)
  remoteStore : List (String × String)
  tursoConfig : Option TursoConfig
  maxLocalSize : Nat

/-- The `StorageCapability` constructor: no remote configuration, empty
stores, threshold `5 * 1024 * 1024` bytes. -/
def StorageCapability.new : StorageCapability :=
  ⟨[], [], none, 5 * 1024 * 1024⟩

/-- The result object of `save`: `{key, location, size, warning?}` where
`location` is the string `'indexeddb'` or `'turso'`. -/
structure SaveResult where
  key : String
  location : String
  size : Nat
  warning : Option String
deriving DecidableEq, Repr

/-- The result object of `delete`: `{deleted, key}`. -/
structure DeleteResult where
  deleted : Bool
  key : String
deriving DecidableEq, Repr

/-- `_saveLocal(key, data)`: `store.put(data, key)` on the local store. -/
def saveLocal (key data : String) (st : StorageCapability) : StorageCapability :=
  { st with localStore := kvPut key data st.localStore }

/-- Modelled from the spec: `_saveCloud(key, data)` writes the record to the
remote tier (the in-source Turso client is a placeholder). -/
def saveCloud (key data : String) (st : StorageCapability) : StorageCapability :=
  { st with remoteStore := kvPut key data st.remoteStore }

/-- `StorageCapability.save({key, data})`.  The payload `key` may be absent
(`none`), `data` is the JSON serialization of the value and `size` its
UTF-8 byte count (`new Blob([dataStr]).size`).  Routing: below the
threshold write locally; at or above it write remotely when a remote
configuration is present; otherwise write locally with a warning. -/
def StorageCapability.save (st : StorageCapability) (key? : Option String)
    (data : String) : Except JsError (SaveResult × StorageCapability) :=
  match key? with
  | none => .error ⟨"Key is required", none⟩
  | some key =>
    if key = "" then .error ⟨"Key is required", none⟩
    else
      let size := data.utf8ByteSize
      if size < st.maxLocalSize then
        .ok (⟨key, "indexeddb", size, none⟩, saveLocal key data st)
      else
        match st.tursoConfig with
        | some _ => .ok (⟨key, "turso", size, none⟩, saveCloud key data st)
        | none =>
          .ok (⟨key, "indexeddb", size, some "Large data stored locally"⟩,
            saveLocal key data st)

/-- Decidable equality for settled promise outcomes. -/
instance {ε δ : Type} [DecidableEq ε] [DecidableEq δ] : DecidableEq (Except ε δ) := fun
  | .ok a, .ok b =>
    if h : a = b then .isTrue (by rw [h])
    else .isFalse (by intro hh; cases hh; exact h rfl)
  | .ok _, .error _ => .isFalse (by intro hh; cases hh)
  | .error _, .ok _ => .isFalse (by intro hh; cases hh)
  | .error a, .error b =>
    if h : a = b then .isTrue (by rw [h])
    else .isFalse (by intro hh; cases hh; exact h rfl)

/-- The observable outcome of `get`: the settled value or error, and the
ordered list of tiers that were probed. -/
structure GetOut where
  result : Except JsError String
  probes : List String
deriving DecidableEq, Repr

/-- `StorageCapability.get({key})`.  `localErr` says whether the
`_getLocal` probe rejects (an IndexedDB failure); that rejection is caught
and logged, falling through like a miss.  On a local miss the remote tier
is probed only when a remote configuration is present; when the key is
absent from both tiers the operation fails with an error carrying
`code = 'KEY_NOT_FOUND'`. -/
def StorageCapability.get (st : StorageCapability) (key? : Option String)
    (localErr : Bool) : GetOut :=
  match key? with
  | none => ⟨.error ⟨"Key is required", none⟩, []⟩
  | some key =>
    if key = "" then ⟨.error ⟨"Key is required", none⟩, []⟩
    else
      match (if localErr then none else kvGet key st.localStore) with
      | some v => ⟨.ok v, ["indexeddb"]⟩
      | none =>
        match st.tursoConfig with
        | some _ =>
          match kvGet key st.remoteStore with
          | some v => ⟨.ok v, ["indexeddb", "turso"]⟩
          | none =>
            ⟨.error ⟨"Key \"" ++ key ++ "\" not found", some "KEY_NOT_FOUND"⟩,
              ["indexeddb", "turso"]⟩
        | none =>
          ⟨.error ⟨"Key \"" ++ key ++ "\" not found", some "KEY_NOT_FOUND"⟩,
            ["indexeddb"]⟩

/-- `StorageCapability.delete({key})`: deletes from the local tier
unconditionally, additionally from the remote tier when a remote
configuration is present, and returns `{deleted: true, key}`; there is no
existence check. -/
def StorageCapability.delete (st : StorageCapability) (key? : Option String) :
    Except JsError (DeleteResult × StorageCapability) :=
  match key? with
  | none => .error ⟨"Key is required", none⟩
  | some key =>
    if key = "" then .error ⟨"Key is required", none⟩
    else
      let st1 := { st with localStore := kvDel key st.localStore }
      let st2 :=
        if st1.tursoConfig.isSome then
          { st1 with remoteStore := kvDel key st1.remoteStore }
        else st1
      .ok (⟨true, key⟩, st2)

/-- The storage payload `{key, data}` as dispatch hands it to the
capability (`key` may be absent). -/
structure StoragePayload where
  key? : Option String
  data : String

/-- The untyped result a storage operation hands back through dispatch. -/
inductive StorageValue where
  | str (v : String)
  | savedR (r : SaveResult)
  | deletedR (r : DeleteResult)
deriving DecidableEq, Repr

/-- The storage capability as registered under the domain `"storage"`:
operation names mapped to the methods above, each settling immediately with
its deterministic result. -/
def storageOps (st : StorageCapability) (localErr : Bool) :
    Capability StoragePayload StorageValue :=
  ⟨[("save", fun p _ => .settles ((st.save p.key? p.data).map
      (fun x => .savedR x.1)) 0),
    ("get", fun p _ => .settles ((st.get p.key? localErr).result.map .str) 0),
    ("delete", fun p _ => .settles ((st.delete p.key?).map
      (fun x => .deletedR x.1)) 0)]⟩

/-- A capability with no operations (valid but useless, per the spec). -/
def dummyCapability : Capability Unit Unit := ⟨[]⟩

/-- A second capability with no operations, distinguishable from
`dummyCapability` only by position in the registry. -/
def hangCapability : Capability Unit Unit := ⟨[("hang", fun _ _ => Settle.hangs)]⟩

/-! ## Helper lemmas about the association-list store -/

theorem kvGet_kvDel_self {α : Type} (k : String) (l : List (String × α)) :
    kvGet k (kvDel k l) = none := by
  induction l with
  | nil => rfl
  | cons p rest ih =>
    obtain ⟨k', v⟩ := p
    by_cases h : k' = k
    · simpa [kvDel, h] using ih
    · simpa [kvDel, kvGet, h] using ih

theorem kvGet_kvDel_other {α : Type} (k k' : String) (l : List (String × α))
    (h : k' ≠ k) : kvGet k' (kvDel k l) = kvGet k' l := by
  induction l with
  | nil => rfl
  | cons p rest ih =>
    obtain ⟨k0, v⟩ := p
    by_cases hp : k0 = k
    · have hkk' : ¬ k = k' := fun hh => h hh.symm
      simpa [kvDel, kvGet, hp, hkk'] using ih
    · by_cases hq : k0 = k'
      · subst hq
        simp [kvDel, kvGet, hp]
      · simpa [kvDel, kvGet, hp, hq] using ih

theorem kvDel_idem {α : Type} (k : String) (l : List (String × α)) :
    kvDel k (kvDel k l) = kvDel k l := by
  induction l with
  | nil => rfl
  | cons p rest ih =>
    obtain ⟨k', v⟩ := p
    by_cases h : k' = k
    · simpa [kvDel, h] using ih
    · simpa [kvDel, h] using ih

theorem kvGet_kvPut_self {α : Type} (k : String) (v : α) (l : List (String × α)) :
    kvGet k (kvPut k v l) = some v := by
  simp [kvPut, kvGet]

theorem kvGet_kvPut_other {α : Type} (k k' : String) (v : α) (l : List (String × α))
    (h : k' ≠ k) : kvGet k' (kvPut k v l) = kvGet k' l := by
  have : k ≠ k' := fun hh => h hh.symm
  simp [kvPut, kvGet, this]
  exact kvGet_kvDel_other k k' l h

/-! ## Helper lemmas about the retry loop -/

theorem runAttempts_allFail {α : Type} (behavior : Nat → Settle α) (es : Nat → JsError)
    (hfail : ∀ k, withTimeout (behavior k) = .error (es k)) :
    ∀ remaining attempt, runAttempts behavior attempt remaining =
      (.error (es (attempt + remaining)), remaining + 1,
        (List.range' attempt remaining).map (fun k => 2 ^ k * 100)) := by
  intro remaining
  induction remaining with
  | zero =>
    intro attempt
    simp [runAttempts, hfail attempt, List.range']
  | succ r ih =>
    intro attempt
    have harith : attempt + 1 + r = attempt + (r + 1) := by omega
    simp [runAttempts, hfail attempt, ih (attempt + 1), List.range'_succ, harith]

theorem executeWithRetry_allFail {α : Type} (id : String) (behavior : Nat → Settle α)
    (es : Nat → JsError) (n : Nat)
    (hfail : ∀ k, withTimeout (behavior k) = .error (es k)) :
    executeWithRetry id behavior n =
      ⟨errorResponse id (jsOrDefaultOpt (es n).code "EXECUTION_FAILED")
        (jsOrDefault (es n).message "Unknown error"),
       n + 1, (List.range n).map (fun k => 2 ^ k * 100)⟩ := by
  unfold executeWithRetry
  rw [runAttempts_allFail behavior es hfail n 0, List.range_eq_range']
  simp

/-! ## Helper lemmas about action splitting -/

theorem splitDots_ne_nil (l : List Char) : splitDots l ≠ [] := by
  cases l with
  | nil => simp [splitDots]
  | cons c cs =>
    by_cases h : c = '.'
    · simp [splitDots, h]
    · simp only [splitDots, h, if_false]
      cases hs : splitDots cs <;> simp

theorem splitDots_head (l : List Char) :
    (splitDots l).head? = some (l.takeWhile (fun c => c != '.')) := by
  induction l with
  | nil => rfl
  | cons c cs ih =>
    by_cases h : c = '.'
    · simp [splitDots, h, List.takeWhile_cons]
    · cases hs : splitDots cs with
      | nil => exact absurd hs (splitDots_ne_nil cs)
      | cons p ps =>
        rw [hs] at ih
        simp only [List.head?] at ih
        simp [splitDots, h, hs, List.takeWhile_cons, Option.some.injEq] at ih ⊢
        exact ih

theorem dotSplitFirst_none (l : List Char) (h : dotSplitFirst l = none) :
    splitDots l = [l] := by
  induction l with
  | nil => rfl
  | cons c cs ih =>
    by_cases hc : c = '.'
    · simp [dotSplitFirst, hc] at h
    · simp only [dotSplitFirst, hc, if_false, Option.map_eq_none'] at h
      simp [splitDots, hc, ih h]

theorem dotSplitFirst_some (l : List Char) (d r : List Char)
    (h : dotSplitFirst l = some (d, r)) :
    splitDots l = d :: splitDots r := by
  induction l generalizing d with
  | nil => simp [dotSplitFirst] at h
  | cons c cs ih =>
    by_cases hc : c = '.'
    · simp only [dotSplitFirst, hc, if_true, Option.some.injEq, Prod.mk.injEq] at h
      obtain ⟨hd, hr⟩ := h
      subst hd; subst hr
      simp [splitDots, hc]
    · simp only [dotSplitFirst, hc, if_false, Option.map_eq_some'] at h
      obtain ⟨⟨d', r'⟩, hds, heq⟩ := h
      simp only [Prod.mk.injEq] at heq
      obtain ⟨hd, hr⟩ := heq
      subst hd; subst hr
      rw [show splitDots (c :: cs) = (c :: (splitDots cs).headD []) :: (splitDots cs).tail by
        simp only [splitDots, hc, if_false]
        cases hs : splitDots cs with
        | nil => exact absurd hs (splitDots_ne_nil cs)
        | cons p ps => simp]
      rw [ih d' hds]
      simp

theorem malformed_falsy (l : List Char) (h : malformedAction l = true) :
    (jsFalsySeg (splitDots l)[0]? || jsFalsySeg (splitDots l)[1]?) = true := by
  unfold malformedAction at h
  cases hd : dotSplitFirst l with
  | none =>
    rw [dotSplitFirst_none l hd]
    simp [jsFalsySeg]
  | some p =>
    obtain ⟨d, r⟩ := p
    rw [hd] at h
    simp only [Bool.or_eq_true, List.isEmpty_iff] at h
    rw [dotSplitFirst_some l d r hd]
    rcases h with h0 | h1
    · subst h0
      simp [jsFalsySeg]
    · subst h1
      simp [splitDots, jsFalsySeg]

/-! ## Claim theorems: dispatcher -/

/-- C2: the claim says a never-settling operation yields an error envelope
with code `TIMEOUT`.  The code races against `new Error('TIMEOUT')`, which
puts `TIMEOUT` in the `message` and leaves the `code` property absent, so
`_executeWithRetry` falls back to `lastError.code || 'EXECUTION_FAILED'`:
the envelope's code is `EXECUTION_FAILED` and its message is `TIMEOUT`,
contradicting both the claim and the repository's own documented error
response example. -/
theorem timeout_code_slip (id : String) (n : Nat) :
    (executeWithRetry id (fun _ => (Settle.hangs : Settle Unit)) n).response =
      Response.error id "EXECUTION_FAILED" "TIMEOUT" true ∧
    dispatch true [("noop", hangCapability)] id "noop.hang" () none none =
      .ok ⟨Response.error id "EXECUTION_FAILED" "TIMEOUT" true, true, 1, []⟩ := by
  constructor
  · rw [executeWithRetry_allFail id (fun _ => (Settle.hangs : Settle Unit))
      (fun _ => ⟨"TIMEOUT", none⟩) n (fun k => rfl)]
    rfl
  · rfl

/-- C3: with resolved `maxRetries = n`, an always-failing operation is
invoked exactly `n + 1` times, the delay before attempt `k + 1` is
`100 * 2 ^ k` milliseconds for each failed attempt `k < n` (and none after
the last), and the final envelope carries the code of the last attempt's
error, provided that code is present and JavaScript-truthy (non-empty —
an empty-string code is falsy, so `lastError.code || 'EXECUTION_FAILED'`
would replace it exactly like an absent one). -/
theorem retry_backoff {α : Type} (id : String) (behavior : Nat → Settle α)
    (es : Nat → JsError) (n : Nat) (c : String)
    (hfail : ∀ k, withTimeout (behavior k) = .error (es k))
    (hcode : (es n).code = some c) (hc : c ≠ "") :
    (executeWithRetry id behavior n).invocations = n + 1 ∧
    (executeWithRetry id behavior n).delays =
      (List.range n).map (fun k => 100 * 2 ^ k) ∧
    (executeWithRetry id behavior n).response =
      Response.error id c
        (jsOrDefault (es n).message "Unknown error")
        (!(structuralCodes.contains c)) := by
  rw [executeWithRetry_allFail id behavior es n hfail]
  refine ⟨rfl, ?_, ?_⟩
  · exact List.map_congr_left (fun a _ => by ring)
  · simp [errorResponse, hcode, jsOrDefaultOpt, jsOrDefault, hc]

/-- Witness for C3 at `maxRetries = 2` with an error carrying the
non-empty code `X`. -/
theorem retry_backoff_witness :
    (∀ k, withTimeout ((fun _ => Settle.settles (Except.error ⟨"boom", some "X"⟩) 7 :
        Nat → Settle Unit) k) = Except.error ⟨"boom", some "X"⟩) ∧
    ((⟨"boom", some "X"⟩ : JsError).code = some "X") ∧
    ("X" ≠ "") ∧
    (executeWithRetry "i" (fun _ => Settle.settles (Except.error ⟨"boom", some "X"⟩) 7 :
        Nat → Settle Unit) 2).invocations = 3 ∧
    (executeWithRetry "i" (fun _ => Settle.settles (Except.error ⟨"boom", some "X"⟩) 7 :
        Nat → Settle Unit) 2).delays = [100, 200] ∧
    (executeWithRetry "i" (fun _ => Settle.settles (Except.error ⟨"boom", some "X"⟩) 7 :
        Nat → Settle Unit) 2).response = Response.error "i" "X" "boom" true := by
  have h := retry_backoff "i"
    (fun _ => Settle.settles (Except.error ⟨"boom", some "X"⟩) 7 : Nat → Settle Unit)
    (fun _ => ⟨"boom", some "X"⟩) 2 "X" (fun k => rfl) rfl (by decide)
  exact ⟨fun k => rfl, rfl, by decide, h.1, h.2.1, h.2.2⟩

/-- C4: a malformed action (no dot, or an empty half around the first dot)
yields the `INVALID_ACTION` error envelope with `retry: false`, and the
capability registry is never consulted. -/
theorem dispatch_invalid_action {π α : Type} (registry : List (String × Capability π α))
    (id action : String) (payload : π) (timeoutOpt retryOpt : Option Nat)
    (hbad : malformedAction action.toList = true) :
    dispatch true registry id action payload timeoutOpt retryOpt =
      .ok ⟨Response.error id "INVALID_ACTION"
        ("Action must be in format \"domain.operation\", got \"" ++ action ++ "\"")
        false, false, 0, []⟩ := by
  have hcond := malformed_falsy action.toList hbad
  unfold dispatch
  rw [hcond]
  rfl

/-- The initialized branch of `dispatch` always resolves, whatever the
parse and lookup outcomes. -/
theorem dispatch_initialized_ok {π α : Type} (registry : List (String × Capability π α))
    (id action : String) (payload : π) (timeoutOpt retryOpt : Option Nat) :
    exceptOk (dispatch true registry id action payload timeoutOpt retryOpt) = true := by
  unfold dispatch
  split
  · simp at *
  · split
    · rfl
    · split
      · rfl
      · split
        · rfl
        · rfl

/-- Witness for C4 on the dot-free action `"save"` with a nonempty registry. -/
theorem dispatch_invalid_action_witness :
    malformedAction "save".toList = true ∧
    dispatch true [("noop", hangCapability)] "id4" "save" () none none =
      .ok ⟨Response.error "id4" "INVALID_ACTION"
        "Action must be in format \"domain.operation\", got \"save\""
        false, false, 0, []⟩ :=
  ⟨by decide,
    dispatch_invalid_action [("noop", hangCapability)] "id4" "save" () none none (by decide)⟩

/-- C5: a dispatch call resolves with an envelope (never rejects) exactly
when the instance is initialized; when it is not, dispatch throws. -/
theorem dispatch_resolves_iff_initialized {π α : Type} (initialized : Bool)
    (registry : List (String × Capability π α)) (id action : String) (payload : π)
    (timeoutOpt retryOpt : Option Nat) :
    exceptOk (dispatch initialized registry id action payload timeoutOpt retryOpt) =
      initialized := by
  cases initialized with
  | false => rfl
  | true => exact dispatch_initialized_ok registry id action payload timeoutOpt retryOpt

/-- C7 (amended): the dispatcher splits the action on every `.` and keeps
the first two segments, so the operation is the text between the first dot
and the following one — the remainder truncated at the next dot, not the
entire remainder. -/
theorem action_split_truncates (action : String) (d r : List Char)
    (h : dotSplitFirst action.toList = some (d, r)) :
    (splitDots action.toList)[0]? = some d ∧
    (splitDots action.toList)[1]? = some (r.takeWhile (fun c => c != '.')) := by
  rw [dotSplitFirst_some action.toList d r h]
  refine ⟨List.getElem?_cons_zero, ?_⟩
  rw [List.getElem?_cons_succ]
  cases hs : splitDots r with
  | nil => exact absurd hs (splitDots_ne_nil r)
  | cons p ps =>
    have hh := splitDots_head r
    rw [hs] at hh
    simp only [List.head?, Option.some.injEq] at hh
    simp [hs, hh]

/-- Witness for C7's amended statement on the action `"a.b.c"`. -/
theorem action_split_truncates_witness :
    dotSplitFirst "a.b.c".toList = some ("a".toList, "b.c".toList) ∧
    (splitDots "a.b.c".toList)[0]? = some "a".toList ∧
    (splitDots "a.b.c".toList)[1]? = some ("b.c".toList.takeWhile (fun c => c != '.')) :=
  ⟨by decide,
    (action_split_truncates "a.b.c" "a".toList "b.c".toList (by decide)).1,
    (action_split_truncates "a.b.c" "a".toList "b.c".toList (by decide)).2⟩

/-- Counterexample to C7 as stated: on `"a.b.c"` the dispatcher resolves
the operation `"b"` (running it), not the entire remainder `"b.c"`. -/
theorem action_split_counterexample :
    dispatch true
      [("a", (⟨[("b.c", fun _ _ => Settle.settles (.ok "ranBC") 0),
                ("b", fun _ _ => Settle.settles (.ok "ranB") 0)]⟩ :
        Capability Unit String))]
      "id7" "a.b.c" () none none =
      .ok ⟨Response.ok "id7" "ranB" 0, true, 1, []⟩ ∧
    (splitDots "a.b.c".toList)[1]? ≠ some "b.c".toList :=
  ⟨rfl, by decide⟩

/-! ## Claim theorems: storage and registration -/

/-- The `KEY_NOT_FOUND` message is never the empty string, so
`lastError.message || 'Unknown error'` keeps it. -/
theorem keyNotFound_msg_ne_empty (key : String) :
    ("Key \"" ++ key ++ "\" not found") ≠ "" := by
  intro h
  have hlen := congrArg String.length h
  simp [String.length_append] at hlen
  exact absurd hlen.2 (by decide)

/-- C1: save routes by serialized size against the threshold (default
5,242,880 bytes): below it the record goes to the local tier and the result
reports the local tier and the size; at or above it with a remote
configuration the record goes to the remote tier; at or above it without
one the record goes to the local tier and the result additionally carries a
non-empty warning. -/
theorem save_tiering (st : StorageCapability) (key data : String) (hkey : key ≠ "") :
    StorageCapability.new.maxLocalSize = 5242880 ∧
    (data.utf8ByteSize < st.maxLocalSize →
      st.save (some key) data =
        .ok (⟨key, "indexeddb", data.utf8ByteSize, none⟩, saveLocal key data st) ∧
      kvGet key (saveLocal key data st).localStore = some data) ∧
    (st.maxLocalSize ≤ data.utf8ByteSize → st.tursoConfig.isSome = true →
      st.save (some key) data =
        .ok (⟨key, "turso", data.utf8ByteSize, none⟩, saveCloud key data st) ∧
      kvGet key (saveCloud key data st).remoteStore = some data) ∧
    (st.maxLocalSize ≤ data.utf8ByteSize → st.tursoConfig = none →
      st.save (some key) data =
        .ok (⟨key, "indexeddb", data.utf8ByteSize, some "Large data stored locally"⟩,
          saveLocal key data st) ∧
      ("Large data stored locally" : String) ≠ "" ∧
      kvGet key (saveLocal key data st).localStore = some data) := by
  refine ⟨rfl, ?_, ?_, ?_⟩
  · intro hsize
    constructor
    · unfold StorageCapability.save
      simp [hkey, hsize]
    · exact kvGet_kvPut_self key data st.localStore
  · intro hsize hcfg
    obtain ⟨cfg, hcfg'⟩ := Option.isSome_iff_exists.mp hcfg
    constructor
    · unfold StorageCapability.save
      simp [hkey, Nat.not_lt.mpr hsize, hcfg']
    · exact kvGet_kvPut_self key data st.remoteStore
  · intro hsize hcfg
    refine ⟨?_, by decide, kvGet_kvPut_self key data st.localStore⟩
    unfold StorageCapability.save
    simp [hkey, Nat.not_lt.mpr hsize, hcfg]

/-- Witness for C1: a small record lands locally; with a tiny threshold a
large record goes remote when remote is configured, and stays local with a
warning when it is not. -/
theorem save_tiering_witness :
    ("k" ≠ "") ∧
    ((⟨[], [], none, 100⟩ : StorageCapability).save (some "k") "ab" =
      .ok (⟨"k", "indexeddb", 2, none⟩, ⟨[("k", "ab")], [], none, 100⟩)) ∧
    ((⟨[], [], some ⟨"u", "t"⟩, 1⟩ : StorageCapability).save (some "k") "ab" =
      .ok (⟨"k", "turso", 2, none⟩, ⟨[], [("k", "ab")], some ⟨"u", "t"⟩, 1⟩)) ∧
    ((⟨[], [], none, 1⟩ : StorageCapability).save (some "k") "ab" =
      .ok (⟨"k", "indexeddb", 2, some "Large data stored locally"⟩,
        ⟨[("k", "ab")], [], none, 1⟩)) := by
  refine ⟨by decide, ?_, ?_, ?_⟩
  · exact ((save_tiering ⟨[], [], none, 100⟩ "k" "ab" (by decide)).2.1 (by decide)).1
  · exact ((save_tiering ⟨[], [], some ⟨"u", "t"⟩, 1⟩ "k" "ab" (by decide)).2.2.1
      (by decide) rfl).1
  · exact ((save_tiering ⟨[], [], none, 1⟩ "k" "ab" (by decide)).2.2.2
      (by decide) rfl).1

/-- C6: get probes the local tier first and returns a local hit without
consulting the remote tier; on a local miss (or a local probe error, which
is swallowed rather than propagated) the remote tier is probed exactly when
a remote configuration is present; a key absent from both tiers fails with
`KEY_NOT_FOUND`, which the executor surfaces as a retryable error
envelope. -/
theorem get_tier_probing (st : StorageCapability) (key id : String) (localErr : Bool)
    (hkey : key ≠ "") :
    (∀ v, localErr = false → kvGet key st.localStore = some v →
      st.get (some key) localErr = ⟨.ok v, ["indexeddb"]⟩) ∧
    ((localErr = true ∨ kvGet key st.localStore = none) →
      (st.get (some key) localErr).probes =
        (if st.tursoConfig.isSome then ["indexeddb", "turso"] else ["indexeddb"])) ∧
    (∀ e, (st.get (some key) localErr).result = .error e →
      e.code = some "KEY_NOT_FOUND") ∧
    ((localErr = true ∨ kvGet key st.localStore = none) →
      (st.tursoConfig = none ∨ kvGet key st.remoteStore = none) →
      (st.get (some key) localErr).result =
        .error ⟨"Key \"" ++ key ++ "\" not found", some "KEY_NOT_FOUND"⟩ ∧
      (executeWithRetry id (opOnce ((st.get (some key) localErr).result)) 0).response =
        Response.error id "KEY_NOT_FOUND" ("Key \"" ++ key ++ "\" not found") true) := by
  refine ⟨?_, ?_, ?_, ?_⟩
  · intro v hle hl
    unfold StorageCapability.get
    simp [hkey, hle, hl]
  · intro hmiss
    have hnone : (if localErr then none else kvGet key st.localStore) = none := by
      rcases hmiss with h1 | h1 <;> simp [h1]
    unfold StorageCapability.get
    cases hcfg : st.tursoConfig with
    | none => simp [hkey, hnone, hcfg]
    | some cfg =>
      cases hr : kvGet key st.remoteStore with
      | none => simp [hkey, hnone, hcfg, hr]
      | some v => simp [hkey, hnone, hcfg, hr]
  · intro e he
    unfold StorageCapability.get at he
    simp only [hkey, if_neg, if_false, reduceIte] at he
    cases hl : (if localErr then none else kvGet key st.localStore) with
    | some v => rw [hl] at he; simp at he
    | none =>
      rw [hl] at he
      cases hcfg : st.tursoConfig with
      | none =>
        rw [hcfg] at he
        simp only [Except.error.injEq] at he
        rw [← he]
      | some cfg =>
        rw [hcfg] at he
        cases hr : kvGet key st.remoteStore with
        | some v => rw [hr] at he; simp at he
        | none =>
          rw [hr] at he
          simp only [Except.error.injEq] at he
          rw [← he]
  · intro hmiss habsent
    have hnone : (if localErr then none else kvGet key st.localStore) = none := by
      rcases hmiss with h1 | h1 <;> simp [h1]
    have hres : (st.get (some key) localErr).result =
        .error ⟨"Key \"" ++ key ++ "\" not found", some "KEY_NOT_FOUND"⟩ := by
      unfold StorageCapability.get
      rcases habsent with h2 | h2
      · simp [hkey, hnone, h2]
      · cases hcfg : st.tursoConfig with
        | none => simp [hkey, hnone, hcfg]
        | some cfg => simp [hkey, hnone, hcfg, h2]
    refine ⟨hres, ?_⟩
    rw [hres]
    rw [executeWithRetry_allFail id
      (opOnce (.error ⟨"Key \"" ++ key ++ "\" not found", some "KEY_NOT_FOUND"⟩))
      (fun _ => ⟨"Key \"" ++ key ++ "\" not found", some "KEY_NOT_FOUND"⟩) 0
      (fun k => rfl)]
    simp [errorResponse, jsOrDefaultOpt, jsOrDefault, keyNotFound_msg_ne_empty key,
      structuralCodes]

/-- Witness for C6: a local hit on `"k"` is served from the local tier; the
missing key `"m"` yields `KEY_NOT_FOUND`, surfaced retryable. -/
theorem get_tier_probing_witness :
    ("k" ≠ "") ∧
    (⟨[("k", "v")], [], none, 100⟩ : StorageCapability).get (some "k") false =
      ⟨.ok "v", ["indexeddb"]⟩ ∧
    ((⟨[], [], none, 100⟩ : StorageCapability).get (some "m") false).result =
      .error ⟨"Key \"m\" not found", some "KEY_NOT_FOUND"⟩ ∧
    (executeWithRetry "i6" (opOnce (((⟨[], [], none, 100⟩ : StorageCapability).get
        (some "m") false).result)) 0).response =
      Response.error "i6" "KEY_NOT_FOUND" "Key \"m\" not found" true := by
  have h1 := (get_tier_probing ⟨[("k", "v")], [], none, 100⟩ "k" "i6" false
    (by decide)).1 "v" rfl rfl
  have h2 := (get_tier_probing ⟨[], [], none, 100⟩ "m" "i6" false
    (by decide)).2.2.2 (Or.inr rfl) (Or.inl rfl)
  exact ⟨by decide, h1, h2.1, h2.2⟩

/-- C9: for a non-empty key, delete succeeds with `{deleted: true, key}`
regardless of whether the key exists in either tier, removing it from the
local tier unconditionally and from the remote tier exactly when a remote
configuration is present, with no existence check; deleting twice equals
deleting once. -/
theorem delete_unconditional (st : StorageCapability) (key : String) (hkey : key ≠ "") :
    ∃ st', st.delete (some key) = .ok (⟨true, key⟩, st') ∧
      st'.delete (some key) = .ok (⟨true, key⟩, st') ∧
      st'.localStore = kvDel key st.localStore ∧
      st'.remoteStore =
        (if st.tursoConfig.isSome then kvDel key st.remoteStore else st.remoteStore) ∧
      st'.tursoConfig = st.tursoConfig ∧
      kvGet key st'.localStore = none ∧
      (st.tursoConfig.isSome = true → kvGet key st'.remoteStore = none) := by
  cases hcfg : st.tursoConfig with
  | none =>
    refine ⟨⟨kvDel key st.localStore, st.remoteStore, st.tursoConfig, st.maxLocalSize⟩,
      ?_, ?_, rfl, ?_, hcfg, kvGet_kvDel_self key st.localStore, ?_⟩
    · unfold StorageCapability.delete
      simp [hkey, hcfg]
    · unfold StorageCapability.delete
      simp [hkey, hcfg, kvDel_idem]
    · simp [hcfg]
    · intro h
      cases h
  | some cfg =>
    refine ⟨⟨kvDel key st.localStore, kvDel key st.remoteStore, st.tursoConfig,
        st.maxLocalSize⟩,
      ?_, ?_, rfl, ?_, hcfg, kvGet_kvDel_self key st.localStore, ?_⟩
    · unfold StorageCapability.delete
      simp [hkey, hcfg]
    · unfold StorageCapability.delete
      simp [hkey, hcfg, kvDel_idem]
    · simp [hcfg]
    · intro h
      exact kvGet_kvDel_self key st.remoteStore

/-- Witness for C9 on a state holding `"k"` in both tiers with a remote
configuration present. -/
theorem delete_unconditional_witness :
    ("k" ≠ "") ∧
    ∃ st', (⟨[("k", "v")], [("k", "w")], some ⟨"u", "t"⟩, 100⟩ :
        StorageCapability).delete (some "k") = .ok (⟨true, "k"⟩, st') ∧
      st'.delete (some "k") = .ok (⟨true, "k"⟩, st') ∧
      st'.localStore = kvDel "k" [("k", "v")] ∧
      st'.remoteStore = (if (some (⟨"u", "t"⟩ : TursoConfig)).isSome then
        kvDel "k" [("k", "w")] else [("k", "w")]) ∧
      st'.tursoConfig = some ⟨"u", "t"⟩ ∧
      kvGet "k" st'.localStore = none ∧
      ((some (⟨"u", "t"⟩ : TursoConfig)).isSome = true →
        kvGet "k" st'.remoteStore = none) :=
  ⟨by decide,
    delete_unconditional ⟨[("k", "v")], [("k", "w")], some ⟨"u", "t"⟩, 100⟩ "k" (by decide)⟩

/-- C10: get and delete with a missing or empty key fail with the message
`Key is required` and no error code, so the dispatcher surfaces
`EXECUTION_FAILED` with `retry: true` — not `KEY_NOT_FOUND` and not a
key-validation code. -/
theorem empty_key_required (st : StorageCapability) (localErr : Bool) (id : String) :
    (st.get none localErr).result = .error ⟨"Key is required", none⟩ ∧
    (st.get (some "") localErr).result = .error ⟨"Key is required", none⟩ ∧
    st.delete none = .error ⟨"Key is required", none⟩ ∧
    st.delete (some "") = .error ⟨"Key is required", none⟩ ∧
    dispatch true [("storage", storageOps st localErr)] id "storage.get"
        ⟨some "", ""⟩ none none =
      .ok ⟨Response.error id "EXECUTION_FAILED" "Key is required" true, true, 1, []⟩ ∧
    dispatch true [("storage", storageOps st localErr)] id "storage.delete"
        ⟨none, ""⟩ none none =
      .ok ⟨Response.error id "EXECUTION_FAILED" "Key is required" true, true, 1, []⟩ :=
  ⟨rfl, rfl, rfl, rfl, rfl, rfl⟩

/-- C8 (amended): registration performs no syntax check at all — `register`
enters any domain name into the registry unconditionally, overwriting an
existing entry (last write wins) and leaving other entries untouched; the
pattern check lives only in `CSPValidator.validateCapability`, which
accepts exactly the names matching the pattern but is never invoked by
`register`. -/
theorem register_no_syntax_check {π α : Type} (name : String)
    (capability : Capability π α) (registry : List (String × Capability π α)) :
    kvGet name (register name capability registry) = some capability ∧
    (∀ k, k ≠ name → kvGet k (register name capability registry) = kvGet k registry) ∧
    exceptOk (validateCapability name) = capNameValid name := by
  refine ⟨kvGet_kvPut_self name capability registry,
    fun k hk => kvGet_kvPut_other name k capability registry hk, ?_⟩
  cases h : capNameValid name <;> simp [validateCapability, exceptOk, h]

/-- Witness for C8's amended statement: the pattern-violating `"1bad"` is
entered and overwrites nothing else. -/
theorem register_no_syntax_check_witness :
    kvGet "1bad" (register "1bad" dummyCapability [("x", dummyCapability)]) =
      some dummyCapability ∧
    ("x" ≠ "1bad") ∧
    kvGet "x" (register "1bad" dummyCapability [("x", dummyCapability)]) =
      kvGet "x" [("x", dummyCapability)] ∧
    exceptOk (validateCapability "1bad") = capNameValid "1bad" := by
  have h := register_no_syntax_check "1bad" dummyCapability [("x", dummyCapability)]
  exact ⟨h.1, by decide, h.2.1 "x" (by decide), h.2.2⟩

/-- Counterexample to C8 as stated: `"1bad"` violates the required pattern,
and `validateCapability` would reject it, yet `register` enters it into the
registry rather than rejecting it. -/
theorem register_validation_counterexample :
    register "1bad" dummyCapability [] = [("1bad", dummyCapability)] ∧
    kvGet "1bad" (register "1bad" dummyCapability []) = some dummyCapability ∧
    capNameValid "1bad" = false ∧
    validateCapability "1bad" = .error "CAPABILITY_NAME_INVALID: Invalid format" :=
  ⟨rfl, rfl, by decide, by decide⟩

end CSOP
